import Mathlib

/-!
Shallow embedding of the routing core of the t-botti multi-network chat bot:
the Registry/Router loop in `src/ircloop.rs`, the admin-check protocol and
command dispatch in `src/message_handler.rs`, and the startup configuration
parsing in `src/ircloop.rs`.

Channels are modelled explicitly: a per-network mpsc channel is a record of
the receiver's liveness plus the queue of actions delivered so far; a oneshot
reply slot is a liveness flag.  A Rust `unwrap()` on a failed send is modelled
as a `panicked` outcome of the step function.
-/

set_option autoImplicit false

namespace TBotti

/-- `IrcChannel` from `src/main.rs`: a (network, channel) destination. -/
structure IrcChannel where
  network : String
  channel : String
deriving DecidableEq, Repr

/-- `ActionType` from `src/botaction.rs`: a PRIVMSG payload or a CTCP-ACTION payload. -/
inductive ActionType where
  | Message (s : String)
  | Action (s : String)
deriving DecidableEq, Repr

/-- `BotAction` from `src/botaction.rs`: an outbound action with its target. -/
structure BotAction where
  target : IrcChannel
  action_type : ActionType
deriving DecidableEq, Repr

/-- Outcome of one event-handling step of a loop body: either the loop
continues with a value, or the Rust code panicked (an `unwrap()` saw `Err`). -/
inductive StepResult (α : Type) where
  | ok (a : α)
  | panicked (msg : String)
deriving DecidableEq, Repr

/-- True exactly on the `panicked` outcome. -/
def StepResult.isPanic {α : Type} : StepResult α → Bool
  | .ok _ => false
  | .panicked _ => true

/-- State of one per-network mpsc channel (`network_input_tx`/`rx` in
`src/ircloop.rs`): whether the receiving Connection Actor is still alive, and
the actions delivered into the channel so far. -/
structure ChanState where
  alive : Bool
  queued : List BotAction
deriving DecidableEq, Repr

/-- Association-list lookup with string keys, modelling `HashMap::get`. -/
def alistLookup {β : Type} : List (String × β) → String → Option β
  | [], _ => none
  | (k, v) :: rest, key => if k = key then some v else alistLookup rest key

/-- Association-list insert-or-overwrite, modelling `HashMap::insert`. -/
def alistInsert {β : Type} : List (String × β) → String → β → List (String × β)
  | [], key, v => [(key, v)]
  | (k, w) :: rest, key, v =>
      if k = key then (k, v) :: rest else (k, w) :: alistInsert rest key v

/-- State owned by the Registry loop in `irc_loop` (`src/ircloop.rs`):
`network_mpsc_senders` (here with each channel's state inlined) and the
`admins` map built at startup. -/
structure RegistryState where
  senders : List (String × ChanState)
  admins : List (String × List String)
deriving DecidableEq, Repr

/-- Append an action to the queue of the channel stored under `key`,
leaving every other entry untouched (a successful `sender.send(action)`). -/
def enqueueAction : List (String × ChanState) → String → BotAction → List (String × ChanState)
  | [], _, _ => []
  | (k, ch) :: rest, key, a =>
      if k = key then (k, { ch with queued := ch.queued ++ [a] }) :: rest
      else (k, ch) :: enqueueAction rest key a

/-- The panic message of `Result::unwrap` on a failed mpsc send. -/
def mpscSendPanic : String := "called Result::unwrap on an Err value: SendError"

/-- The `Some(action) = output_channel.recv()` arm of the Registry loop
(`src/ircloop.rs` lines 138-141): look the target network up in
`network_mpsc_senders`; if absent, do nothing; if present, `send` the action
into the channel and `unwrap()` the result, which panics when the receiving
actor has terminated. -/
def registryHandleAction (st : RegistryState) (action : BotAction) : StepResult RegistryState :=
  match alistLookup st.senders action.target.network with
  | some ch =>
      if ch.alive then
        .ok { st with senders := enqueueAction st.senders action.target.network action }
      else
        .panicked mpscSendPanic
  | none => .ok st

/-- The inner scan of the `ClientQuery::IsAdmin` arm (`src/ircloop.rs` lines
149-154): walk the network's admin mask list, setting `is_owner` and breaking
on the first mask equal to the queried mask. -/
def scanAdmins : List String → String → Bool
  | [], _ => false
  | a :: rest, mask => if a = mask then true else scanAdmins rest mask

/-- The admin answer computed by the Registry (`src/ircloop.rs` lines
147-155): look the network up in `admins`; scan its list for exact string
equality; absent network means `false`. -/
def isAdminAnswer (admins : List (String × List String)) (network mask : String) : Bool :=
  match alistLookup admins network with
  | some l => scanAdmins l mask
  | none => false

/-- The panic message of `Result::unwrap` on a failed oneshot send. -/
def oneshotSendPanic : String := "called Result::unwrap on an Err value"

/-- The `ClientQuery::IsAdmin` arm of the Registry loop (`src/ircloop.rs`
lines 143-158): compute `is_owner` and send it through the oneshot reply
slot with `unwrap()`; the send fails, and the unwrap panics, exactly when the
consumer has already dropped the receiving end (`receiverAlive = false`).
On success the step yields the answer that was delivered. -/
def registryHandleQuery (st : RegistryState) (receiverAlive : Bool)
    (network mask : String) : StepResult Bool :=
  let is_owner := isAdminAnswer st.admins network mask
  if receiverAlive then .ok is_owner else .panicked oneshotSendPanic

/-! ## The message handler (`src/message_handler.rs`) -/

/-- The sender part of an inbound message, the irc crate's `Prefix` type:
either a server name or a `nick!user@host` triple. -/
inductive MsgOrigin where
  | serverName (s : String)
  | nickname (nick user host : String)
deriving DecidableEq, Repr

/-- The message kinds the handler inspects: `Command::PRIVMSG(target, msg)`;
every other protocol command is ignored by `message_handler`. -/
inductive IrcCommand where
  | privmsg (target msg : String)
  | other
deriving DecidableEq, Repr

/-- An inbound protocol message: optional sender plus command.  The sender
field is called `prefix` in the irc crate. -/
structure IrcMessage where
  origin : Option MsgOrigin
  command : IrcCommand
deriving DecidableEq, Repr

/-- Modelled from the spec: the transport library's channel-name test used by
`Message::response_target` (a name whose first character is one of
`#`, `&`, `+`, `!`). -/
def isChannelName (s : String) : Bool :=
  match s.data with
  | [] => false
  | c :: _ => c = '#' || c = '&' || c = '+' || c = '!'

/-- Modelled from the spec: the transport library's `Message::response_target`
(`src/message_handler.rs` line 183 calls it): for a PRIVMSG to a channel,
the channel; for a PRIVMSG to a non-channel target, the sender's nick;
otherwise nothing. -/
def responseTarget (m : IrcMessage) : Option String :=
  match m.command with
  | .privmsg target _ =>
      if isChannelName target then some target
      else
        match m.origin with
        | some (.nickname n _ _) => some n
        | _ => none
  | .other => none

/-- Whether `p` is an initial segment of `l` (character lists). -/
def listStartsWith : List Char → List Char → Bool
  | [], _ => true
  | _ :: _, [] => false
  | p :: ps, c :: cs => (p = c : Bool) && listStartsWith ps cs

/-- Whether the list starts with a character other than a space. -/
def headNonSpace : List Char → Bool
  | [] => false
  | c :: _ => (c ≠ ' ' : Bool)

/-- Whether the regex `(https?://[^ ]+)` (the `RE_URL` of
`src/message_handler.rs`) matches at the head of the list: the literal
scheme followed by at least one non-space character. -/
def urlMatchAt (l : List Char) : Bool :=
  (listStartsWith "http://".data l && headNonSpace (l.drop 7)) ||
  (listStartsWith "https://".data l && headNonSpace (l.drop 8))

/-- Whether `RE_URL` matches anywhere in the message text
(`RE_URL.is_match(msg)` at `src/message_handler.rs` line 190). -/
def reUrlMatch : List Char → Bool
  | [] => false
  | c :: rest => urlMatchAt (c :: rest) || reUrlMatch rest

/-- Whether `needle` occurs as a contiguous run anywhere in the list,
modelling Rust `str::contains`. -/
def listInfixOf (needle : List Char) : List Char → Bool
  | [] => needle.isEmpty
  | c :: rest => listStartsWith needle (c :: rest) || listInfixOf needle rest

/-- ASCII lowercasing of one character, the fragment of Rust
`char::to_lowercase` exercised by the handler's message texts. -/
def asciiLowerChar (c : Char) : Char :=
  if 'A' ≤ c ∧ c ≤ 'Z' then Char.ofNat (c.toNat + 32) else c

/-- Model of `str::to_lowercase` (`msg.to_lowercase()` at
`src/message_handler.rs` line 182), exact on ASCII text. -/
def rustToLowercase (s : String) : String :=
  String.mk (s.data.map asciiLowerChar)

/-- `msg_lower.starts_with(COMMAND_PREFIX)` with `COMMAND_PREFIX = '.'`
(`src/message_handler.rs` lines 36 and 202). -/
def startsWithCmdChar (s : String) : Bool :=
  match s.data with
  | [] => false
  | c :: _ => (c = '.' : Bool)

/-- Trim whitespace from both ends, modelling
`str::trim_matches(char::is_whitespace)`. -/
def trimWs (l : List Char) : List Char :=
  ((l.dropWhile Char.isWhitespace).reverse.dropWhile Char.isWhitespace).reverse

/-- The command/params split of `handle_command` (`src/message_handler.rs`
lines 101-108) applied to `message[1..]`: split at the first whitespace
character; the parameter half is trimmed of surrounding whitespace; with no
whitespace the whole rest is the command and the params are empty. -/
def splitAtFirstWs (rest : List Char) : List Char × List Char :=
  match rest.findIdx? Char.isWhitespace with
  | some i => (rest.take i, trimWs (rest.drop i))
  | none => (rest, [])

/-- `command_echo` (`src/message_handler.rs` lines 42-61): build the reply
text from the sender triple (or the `Echo:` form when there is none) and
produce the single `BotAction` it sends. -/
def command_echo (source : IrcChannel) (params : String) (origin : Option MsgOrigin) : BotAction :=
  let msg_to_send :=
    match origin with
    | some (.nickname nick user host) =>
        nick ++ "!" ++ user ++ "@" ++ host ++ ": " ++ params
    | _ => "Echo: " ++ params
  { target := source, action_type := .Message msg_to_send }

/-- What one invocation of `handle_command` (`src/message_handler.rs` lines
92-171) dispatches: the fully modelled `echo` arm with its action; any other
matched arm, recorded by name — their bodies are external request/response
handlers outside the routing core; or the empty `_` arm, which runs no
handler and produces nothing. -/
inductive Dispatch where
  | echoed (a : BotAction)
  | externalHandler (name : String)
  | noMatch
deriving DecidableEq, Repr

/-- The command word `handle_command` extracts: the part of `message[1..]`
before the first whitespace character. -/
def commandWordOf (message : String) : String :=
  String.mk (splitAtFirstWs (message.data.drop 1)).1

/-- The params string `handle_command` extracts: the part of `message[1..]`
after the first whitespace character, trimmed. -/
def paramsOf (message : String) : String :=
  String.mk (splitAtFirstWs (message.data.drop 1)).2

/-- `handle_command` (`src/message_handler.rs` lines 92-171): drop the
leading command character from the original (non-lowercased) message, split
into command and params, and match the command word case-sensitively against
the literal arm names. -/
def handle_command (source : IrcChannel) (message : String) (origin : Option MsgOrigin) : Dispatch :=
  let params : String := paramsOf message
  match commandWordOf message with
  | "echo" => .echoed (command_echo source params origin)
  | "timer" => .externalHandler "timer"
  | "pizza" => .externalHandler "pizza"
  | "bigone" => .externalHandler "bigone"
  | "rss" => .externalHandler "rss"
  | "sää" | "saa" | "fmi" => .externalHandler "fmi"
  | "weather" | "owm" => .externalHandler "owm"
  | "weatherset" => .externalHandler "weatherset"
  | "roll" => .externalHandler "roll"
  | "ep" => .externalHandler "ep"
  | "wa" => .externalHandler "wa"
  | "wikipedia" => .externalHandler "wikipedia"
  | "wikipediafi" => .externalHandler "wikipediafi"
  | "epic" => .externalHandler "epic"
  | "ts" => .externalHandler "ts"
  | "ukkostutka" | "blitzortung" => .externalHandler "blitzortung"
  | "agdq" | "sgdq" | "gdq" => .externalHandler "gdq"
  | "sähkö" | "sahko" => .externalHandler "sahko"
  | _ => .noMatch

/-- The literal command names of the `handle_command` match arms. -/
def commandNames : List String :=
  ["echo", "timer", "pizza", "bigone", "rss", "sää", "saa", "fmi",
   "weather", "owm", "weatherset", "roll", "ep", "wa", "wikipedia",
   "wikipediafi", "epic", "ts", "ukkostutka", "blitzortung",
   "agdq", "sgdq", "gdq", "sähkö", "sahko"]

/-- Result of one `is_admin` call (`src/message_handler.rs` lines 63-90):
the query sent to the Registry, if any, and the boolean the caller gets. -/
structure AdminCheck where
  query : Option (String × String)
  result : Bool
deriving DecidableEq, Repr

/-- `is_admin` (`src/message_handler.rs` lines 63-90): a sender without a
`nick!user@host` triple yields `false` with no query sent; otherwise the mask
is built, a `ClientQuery::IsAdmin` is sent, and the answer is
`matches!(admin_rx.await, Ok(true))` — `registryReply` is the value the
oneshot receiver observes, `none` when the Registry dropped the slot without
answering. -/
def is_admin (registryReply : Option Bool) (origin : Option MsgOrigin)
    (network : String) : AdminCheck :=
  match origin with
  | some (.nickname nick user host) =>
      { query := some (network, nick ++ "!" ++ user ++ "@" ++ host)
        result :=
          match registryReply with
          | some true => true
          | _ => false }
  | _ => { query := none, result := false }

/-- The `prefix` clone taken by `message_handler` before spawning
`handle_command` (`src/message_handler.rs` lines 203-210): a nickname triple
survives, anything else becomes `None`. -/
def nickOnly : Option MsgOrigin → Option MsgOrigin
  | some (.nickname n u h) => some (.nickname n u h)
  | _ => none

/-- What one `PRIVMSG` iteration of `message_handler` does
(`src/message_handler.rs` lines 180-261): whether the URL-title task was
spawned, what the command path dispatched (when the lowercased text starts
with the command character), the nick the `h33h3` responder was spawned for,
and the `MATT DAMON` action, if produced. -/
structure PrivmsgOutcome where
  urlTitleTaskSpawned : Bool
  dispatched : Option Dispatch
  h33h3For : Option String
  mattDamonAction : Option BotAction
deriving DecidableEq, Repr

/-- One iteration of the `message_handler` loop on an inbound
`(network, message)` pair (`src/message_handler.rs` lines 180-261).
`none` means the iteration did nothing: the message was not a PRIVMSG, or it
had no response target (`continue`). -/
def message_handler_privmsg (network : String) (m : IrcMessage) : Option PrivmsgOutcome :=
  match m.command with
  | .privmsg _ msg =>
      let msg_lower := rustToLowercase msg
      match responseTarget m with
      | none => none
      | some channel =>
          let source : IrcChannel := { network := network, channel := channel }
          some
            { urlTitleTaskSpawned := reUrlMatch msg.data
              dispatched :=
                if startsWithCmdChar msg_lower then
                  some (handle_command source msg (nickOnly m.origin))
                else none
              h33h3For :=
                if msg_lower = "h33h3" then
                  match m.origin with
                  | some (.nickname n _ _) => some n
                  | _ => none
                else none
              mattDamonAction :=
                if listInfixOf "matt damon".data msg_lower.data then
                  some { target := source, action_type := .Message "MATT DAMON" }
                else none }
  | .other => none

/-! ## Startup configuration parsing (`src/ircloop.rs` lines 24-131) -/

/-- One network entry of the YAML configuration as `irc_loop` reads it:
each field is the result of the corresponding `as_str`/`as_i64`/`as_bool`
call (`none` when the key is missing or has the wrong type); the `channels`
and `admins` vectors may contain non-string elements, modelled as inner
`none`s, which the code skips. -/
structure NetworkYaml where
  network : Option String
  nick : Option String
  server : Option String
  port : Option Int
  tls : Option Bool
  channels : Option (List (Option String))
  admins : Option (List (Option String))
deriving DecidableEq, Repr

/-- The fields of the irc crate's `Config` that `irc_loop` sets
(`src/ircloop.rs` lines 36-93). -/
structure NetConfig where
  nickname : Option String
  server : Option String
  port : Option Int
  use_tls : Option Bool
  channels : List String
deriving DecidableEq, Repr

/-- `Config { ..Config::default() }`: the fields the loop may set all start
out unset (empty channel list). -/
def defaultNetConfig : NetConfig :=
  { nickname := none, server := none, port := none, use_tls := none, channels := [] }

/-- One iteration of the `for network in networks` loop (`src/ircloop.rs`
lines 35-94) over the pair of maps `(admins, configs)` built so far.
`none` models the early `return` of the whole `irc_loop` on a missing
network name or missing server. The port is stored through the `as u16`
cast; `use_tls` defaults to `false`; channel and admin vectors keep only
their string elements. -/
def processNetwork (st : List (String × List String) × List (String × NetConfig))
    (n : NetworkYaml) : Option (List (String × List String) × List (String × NetConfig)) :=
  match n.network with
  | none => none
  | some network_name =>
      let admins1 := alistInsert st.1 network_name []
      match n.server with
      | none => none
      | some srv =>
          let config : NetConfig :=
            { nickname := n.nick
              server := some srv
              port := n.port.map (fun p => p.emod 65536)
              use_tls := some (n.tls.getD false)
              channels := (n.channels.getD []).filterMap id }
          let adminList := (n.admins.getD []).filterMap id
          some (alistInsert admins1 network_name adminList,
                alistInsert st.2 network_name config)

/-- The whole configuration loop: process each network entry in order,
aborting the startup (`none`) at the first entry with a missing name or
server, before any Connection Actor is spawned. -/
def parseNetworks : List NetworkYaml →
    List (String × List String) × List (String × NetConfig) →
    Option (List (String × List String) × List (String × NetConfig))
  | [], st => some st
  | n :: rest, st =>
      match processNetwork st n with
      | none => none
      | some st2 => parseNetworks rest st2

/-- Outcome of `irc_loop` startup: either it returned before spawning
anything, or it reached the spawn loop (`src/ircloop.rs` lines 98-131) and
spawned one Connection Actor per entry of `configs`, entering the routing
loop with the built admin map. -/
inductive StartupResult where
  | aborted
  | started (spawnedNetworks : List String) (admins : List (String × List String))
deriving DecidableEq, Repr

/-- The startup phase of `irc_loop` (`src/ircloop.rs` lines 24-131): a
missing `networks` key aborts; otherwise the configuration loop runs and, if
it succeeds, every parsed network gets its Connection Actor spawned. -/
def irc_loop_startup (networks : Option (List NetworkYaml)) : StartupResult :=
  match networks with
  | none => .aborted
  | some ns =>
      match parseNetworks ns ([], []) with
      | none => .aborted
      | some (admins, configs) => .started (configs.map Prod.fst) admins

/-- The networks whose Connection Actor was spawned. -/
def spawnedNetworks : StartupResult → List String
  | .aborted => []
  | .started l _ => l

/-- A network entry that `irc_loop` rejects: missing name or missing server. -/
def badNetworkEntry (n : NetworkYaml) : Prop :=
  n.network = none ∨ n.server = none

instance (n : NetworkYaml) : Decidable (badNetworkEntry n) := by
  unfold badNetworkEntry; infer_instance

/-! ## Concrete instances used by the claim theorems -/

/-- Whether the sender carries a resolvable `nick!user@host` triple. -/
def hasNickOrigin : Option MsgOrigin → Bool
  | some (.nickname _ _ _) => true
  | _ => false

/-- A registry whose one network's Connection Actor has terminated. -/
def c1_state : RegistryState :=
  { senders := [("irc1", { alive := false, queued := [] })], admins := [] }

/-- An action addressed to the network with the dead actor. -/
def c1_action : BotAction :=
  { target := { network := "irc1", channel := "#ch" }, action_type := .Message "hi" }

/-- A registry with one configured admin mask. -/
def c2_state : RegistryState :=
  { senders := [], admins := [("net1", ["alice!a@host"])] }

/-- A registry with one live network. -/
def c6_state : RegistryState :=
  { senders := [("irc1", { alive := true, queued := [] })], admins := [] }

/-- An action addressed to a network absent from the handle mapping. -/
def c6_action : BotAction :=
  { target := { network := "irc3", channel := "#ch" }, action_type := .Message "hi" }

/-- A registry with two live networks. -/
def c7_state : RegistryState :=
  { senders := [("irc1", { alive := true, queued := [] }),
                ("irc2", { alive := true, queued := [] })]
    admins := [] }

/-- An action addressed to the first of the two networks. -/
def c7_action : BotAction :=
  { target := { network := "irc1", channel := "#a" }, action_type := .Message "m" }

/-- The registry after `c7_action` was forwarded: only `irc1`'s queue grew. -/
def c7_state_after : RegistryState :=
  { senders := [("irc1", { alive := true, queued := [c7_action] }),
                ("irc2", { alive := true, queued := [] })]
    admins := [] }

/-- A fully specified network entry. -/
def c8_good : NetworkYaml :=
  { network := some "irc1", nick := none, server := some "irc.example.com",
    port := none, tls := none, channels := none, admins := none }

/-- A network entry with a name but no server address. -/
def c8_bad : NetworkYaml :=
  { network := some "irc2", nick := none, server := none,
    port := none, tls := none, channels := none, admins := none }

/-- The inbound `.echo hi` message of Scenario A, from `alice!a@host`. -/
def c9_message : IrcMessage :=
  { origin := some (.nickname "alice" "a" "host")
    command := .privmsg "#chan" ".echo hi" }

/-- The single outbound action Scenario A expects. -/
def c9_action : BotAction :=
  { target := { network := "irc1", channel := "#chan" }
    action_type := .Message "alice!a@host: hi" }

/-- A registry with the two live networks `irc1` and `irc2` of Scenario A. -/
def c9_registry : RegistryState :=
  { senders := [("irc1", { alive := true, queued := [] }),
                ("irc2", { alive := true, queued := [] })]
    admins := [] }

/-- The Scenario A registry after routing `c9_action`: the action sits in
`irc1`'s channel and `irc2`'s queue is still empty. -/
def c9_registry_after : RegistryState :=
  { senders := [("irc1", { alive := true, queued := [c9_action] }),
                ("irc2", { alive := true, queued := [] })]
    admins := [] }

/-- The `.ECHO hi` message: command word differing only in case from the
registered handler name `echo`. -/
def c10_message : IrcMessage :=
  { origin := some (.nickname "alice" "a" "host")
    command := .privmsg "#chan" ".ECHO hi" }

/-! ## Helper lemmas -/

/-- The admin scan succeeds exactly when the mask is a member of the list. -/
theorem scanAdmins_eq_true_iff (l : List String) (mask : String) :
    scanAdmins l mask = true ↔ mask ∈ l := by
  induction l with
  | nil => simp [scanAdmins]
  | cons a rest ih =>
      by_cases h : a = mask
      · subst h; simp [scanAdmins]
      · simp [scanAdmins, h, ih, List.mem_cons]
        intro hmask
        exact absurd hmask.symm h

/-- Enqueueing under one key leaves lookups under every other key unchanged. -/
theorem alistLookup_enqueueAction_ne (senders : List (String × ChanState))
    (key : String) (a : BotAction) (k : String) (hne : k ≠ key) :
    alistLookup (enqueueAction senders key a) k = alistLookup senders k := by
  induction senders with
  | nil => rfl
  | cons p rest ih =>
      obtain ⟨k', ch⟩ := p
      by_cases h : k' = key
      · subst h
        simp [enqueueAction, alistLookup, Ne.symm hne]
      · simp [enqueueAction, alistLookup, h]
        by_cases h2 : k' = k
        · simp [h2]
        · simp [h2, ih]

/-- A network entry with a missing name or server makes the configuration
loop iteration fail, whatever maps were built so far. -/
theorem processNetwork_eq_none_of_bad
    (st : List (String × List String) × List (String × NetConfig))
    (n : NetworkYaml) (h : badNetworkEntry n) :
    processNetwork st n = none := by
  rcases h with hn | hs
  · simp [processNetwork, hn]
  · cases hmn : n.network with
    | none => simp [processNetwork, hmn]
    | some name => simp [processNetwork, hmn, hs]

/-- If any entry of the network list is missing its name or server, the
whole configuration loop aborts, from any intermediate state. -/
theorem parseNetworks_eq_none_of_bad (ns : List NetworkYaml)
    (h : ∃ n ∈ ns, badNetworkEntry n) :
    ∀ st, parseNetworks ns st = none := by
  induction ns with
  | nil => simp at h
  | cons n rest ih =>
      intro st
      obtain ⟨m, hm, hbad⟩ := h
      rcases List.mem_cons.mp hm with h1 | h2
      · subst h1
        simp [parseNetworks, processNetwork_eq_none_of_bad st m hbad]
      · cases hpn : processNetwork st n with
        | none => simp [parseNetworks, hpn]
        | some st2 => simp [parseNetworks, hpn, ih ⟨m, h2, hbad⟩ st2]

/-- A message whose command word matches no arm falls through to the empty
`_` arm. -/
theorem handle_command_eq_noMatch (source : IrcChannel) (message : String)
    (origin : Option MsgOrigin) (h : commandWordOf message ∉ commandNames) :
    handle_command source message origin = .noMatch := by
  unfold handle_command
  split <;> simp_all [commandNames]

/-! ## Claim theorems -/

/-- Claim C1, counterexample: with network `irc1` present in the handle
mapping but its actor terminated, routing an action addressed to `irc1` does
not continue as a drop — the Registry loop panicks (`unwrap` on the failed
send at `src/ircloop.rs` line 140). -/
theorem c1_dead_actor_counterexample :
    alistLookup c1_state.senders c1_action.target.network
      = some { alive := false, queued := [] } ∧
    (registryHandleAction c1_state c1_action).isPanic = true := by decide

/-- Claim C1, amended: for every OutboundAction whose target network is a
key of the handle mapping but whose Connection Actor has terminated, the
Registry's forward unwraps the failed send and panicks the routing loop —
the failed forward is not treated as a drop. -/
theorem c1_dead_actor_panics (st : RegistryState) (a : BotAction) (ch : ChanState)
    (hlk : alistLookup st.senders a.target.network = some ch)
    (hdead : ch.alive = false) :
    registryHandleAction st a = .panicked mpscSendPanic := by
  simp [registryHandleAction, hlk, hdead]

/-- Claim C1, witness for the amended theorem at a concrete registry. -/
theorem c1_dead_actor_panics_witness :
    alistLookup c1_state.senders c1_action.target.network
      = some { alive := false, queued := [] } ∧
    registryHandleAction c1_state c1_action = .panicked mpscSendPanic :=
  ⟨by decide, c1_dead_actor_panics c1_state c1_action
    { alive := false, queued := [] } (by decide) rfl⟩

/-- Claim C2, counterexample: when the consumer has already dropped its
one-shot reply slot, the Registry's answer is not a no-op — the `unwrap` on
the failed oneshot send (`src/ircloop.rs` line 157) panicks the Registry
loop. -/
theorem c2_dropped_slot_counterexample :
    (registryHandleQuery c2_state false "net1" "alice!a@host").isPanic = true := by
  decide

/-- Claim C2, amended: for every AdminQuery whose consumer has dropped its
one-shot reply slot before the Registry answers, the Registry's send of the
answer fails and the `unwrap` panicks the Registry loop, which therefore does
not continue servicing subsequent events. -/
theorem c2_dropped_slot_panics (st : RegistryState) (network mask : String) :
    registryHandleQuery st false network mask = .panicked oneshotSendPanic := rfl

/-- Claim C3: the Registry answers an AdminQuery with `true` exactly when
the configured admin mask list of the queried network contains a string
equal to the queried mask, and with `false` when the network has no list or
the list has no exact match; with a live consumer the loop continues and
delivers exactly that answer. -/
theorem c3_admin_exact_match (st : RegistryState) (network mask : String) :
    registryHandleQuery st true network mask
      = .ok (isAdminAnswer st.admins network mask) ∧
    (isAdminAnswer st.admins network mask = true ↔
      ∃ l, alistLookup st.admins network = some l ∧ mask ∈ l) := by
  refine ⟨rfl, ?_⟩
  unfold isAdminAnswer
  cases h : alistLookup st.admins network with
  | none => simp
  | some l => simp [scanAdmins_eq_true_iff]

/-- Claim C4: an inbound message whose sender has no resolvable
`nick!user@host` triple is never an admin: `is_admin` returns `false` and
sends no query to the Registry, whatever the Registry would have replied. -/
theorem c4_no_identity_fail_closed (registryReply : Option Bool)
    (origin : Option MsgOrigin) (network : String)
    (h : hasNickOrigin origin = false) :
    is_admin registryReply origin network = { query := none, result := false } := by
  cases origin with
  | none => rfl
  | some o =>
      cases o with
      | serverName s => rfl
      | nickname n u hst => simp [hasNickOrigin] at h

/-- Claim C4, witness: a server-sourced sender, with a Registry that would
have answered `true`. -/
theorem c4_no_identity_fail_closed_witness :
    hasNickOrigin (some (.serverName "irc.example")) = false ∧
    is_admin (some true) (some (.serverName "irc.example")) "net1"
      = { query := none, result := false } :=
  ⟨rfl, c4_no_identity_fail_closed (some true) (some (.serverName "irc.example")) "net1" rfl⟩

/-- Claim C5: when the Registry drops the admin query without answering (the
one-shot channel closes with no value), the waiting consumer observes
`false` — `matches!(admin_rx.await, Ok(true))` on the closed channel. -/
theorem c5_dropped_query_is_false (origin : Option MsgOrigin) (network : String) :
    (is_admin none origin network).result = false := by
  cases origin with
  | none => rfl
  | some o => cases o <;> rfl

/-- Claim C6: an action whose target network is not a key of the handle
mapping is delivered to no actor and raises nothing: the Registry step
returns its state unchanged and the loop goes on. -/
theorem c6_unknown_network_drop (st : RegistryState) (a : BotAction)
    (h : alistLookup st.senders a.target.network = none) :
    registryHandleAction st a = .ok st := by
  unfold registryHandleAction
  rw [h]

/-- Claim C6, witness: an action for the unconfigured network `irc3`. -/
theorem c6_unknown_network_drop_witness :
    alistLookup c6_state.senders c6_action.target.network = none ∧
    registryHandleAction c6_state c6_action = .ok c6_state :=
  ⟨by decide, c6_unknown_network_drop c6_state c6_action (by decide)⟩

/-- Claim C7: whenever the Registry step forwards (or drops) an action and
continues, the channel stored under any network other than the action's
target network is exactly as it was — an action for N1 is never sent on N2's
handle. -/
theorem c7_routing_isolation (st : RegistryState) (a : BotAction)
    (st2 : RegistryState) (hok : registryHandleAction st a = .ok st2)
    (n2 : String) (hne : n2 ≠ a.target.network) :
    alistLookup st2.senders n2 = alistLookup st.senders n2 := by
  unfold registryHandleAction at hok
  cases hlk : alistLookup st.senders a.target.network with
  | none =>
      rw [hlk] at hok
      simp at hok
      rw [hok]
  | some ch =>
      rw [hlk] at hok
      cases hal : ch.alive with
      | false => simp [hal] at hok
      | true =>
          simp [hal] at hok
          rw [← hok]
          exact alistLookup_enqueueAction_ne st.senders a.target.network a n2 hne

/-- Claim C7, witness: two live networks; the action for `irc1` leaves
`irc2`'s channel untouched. -/
theorem c7_routing_isolation_witness :
    registryHandleAction c7_state c7_action = .ok c7_state_after ∧
    ("irc2" ≠ c7_action.target.network) ∧
    alistLookup c7_state_after.senders "irc2" = alistLookup c7_state.senders "irc2" :=
  ⟨by decide, by decide,
   c7_routing_isolation c7_state c7_action c7_state_after (by decide) "irc2" (by decide)⟩

/-- Claim C8: if any configured network entry is missing its name or its
server address, `irc_loop` returns during configuration parsing — startup is
aborted and no Connection Actor is spawned for any network, the well-formed
ones included. -/
theorem c8_bad_config_aborts (ns : List NetworkYaml)
    (h : ∃ n ∈ ns, badNetworkEntry n) :
    irc_loop_startup (some ns) = .aborted ∧
    spawnedNetworks (irc_loop_startup (some ns)) = [] := by
  have hp := parseNetworks_eq_none_of_bad ns h ([], [])
  constructor
  · simp [irc_loop_startup, hp]
  · simp [irc_loop_startup, hp, spawnedNetworks]

/-- Claim C8, witness: one good entry followed by one entry without a
server; nothing is spawned. -/
theorem c8_bad_config_aborts_witness :
    (∃ n ∈ [c8_good, c8_bad], badNetworkEntry n) ∧
    irc_loop_startup (some [c8_good, c8_bad]) = .aborted ∧
    spawnedNetworks (irc_loop_startup (some [c8_good, c8_bad])) = [] :=
  ⟨⟨c8_bad, by decide, by decide⟩,
   c8_bad_config_aborts [c8_good, c8_bad] ⟨c8_bad, by decide, by decide⟩⟩

/-- Claim C9 (Scenario A): the inbound `.echo hi` on `irc1` from
`alice!a@host` produces exactly one outbound action — `Say` of
`alice!a@host: hi` targeting `irc1` and the originating channel, with no URL
task, no `h33h3` responder and no other inline action — and routing that
action through a registry holding `irc1` and `irc2` delivers it to `irc1`'s
channel only, leaving `irc2`'s queue empty. -/
theorem c9_echo_scenario :
    message_handler_privmsg "irc1" c9_message = some
      { urlTitleTaskSpawned := false
        dispatched := some (.echoed c9_action)
        h33h3For := none
        mattDamonAction := none } ∧
    registryHandleAction c9_registry c9_action = .ok c9_registry_after := by
  constructor <;> decide

/-- Claim C10: command dispatch is case-sensitive against the original
message text: whenever the lowercased text begins with the command character
but the command word extracted from the original text matches no registered
handler name, the handler enters the command path and dispatches the empty
`_` arm — no handler runs, no outbound action is produced. -/
theorem c10_case_sensitive_dispatch (network channel msgText : String)
    (origin : Option MsgOrigin)
    (hch : isChannelName channel = true)
    (hdot : startsWithCmdChar (rustToLowercase msgText) = true)
    (hcmd : commandWordOf msgText ∉ commandNames) :
    ∃ oc, message_handler_privmsg network
        { origin := origin, command := .privmsg channel msgText } = some oc ∧
      oc.dispatched = some Dispatch.noMatch := by
  have hrt : responseTarget { origin := origin, command := .privmsg channel msgText }
      = some channel := by
    simp [responseTarget, hch]
  have hnm := handle_command_eq_noMatch
    { network := network, channel := channel } msgText (nickOnly origin) hcmd
  simp only [message_handler_privmsg, hrt, hdot, if_true, hnm]
  exact ⟨_, rfl, rfl⟩

/-- Claim C10, witness: `.ECHO hi` enters the command path and dispatches
nothing. -/
theorem c10_case_sensitive_dispatch_witness :
    isChannelName "#chan" = true ∧
    startsWithCmdChar (rustToLowercase ".ECHO hi") = true ∧
    commandWordOf ".ECHO hi" ∉ commandNames ∧
    (∃ oc, message_handler_privmsg "irc1"
        { origin := some (.nickname "alice" "a" "host")
          command := .privmsg "#chan" ".ECHO hi" } = some oc ∧
      oc.dispatched = some Dispatch.noMatch) :=
  ⟨rfl, by decide, by decide,
   c10_case_sensitive_dispatch "irc1" "#chan" ".ECHO hi"
     (some (.nickname "alice" "a" "host")) rfl (by decide) (by decide)⟩

end TBotti
